import Mathlib

/-!
Shallow embedding of `src/packages/turf-nearest-neighbor-analysis/index.js`
(the Turf nearest-neighbor-analysis package) and proofs about it.

Numbers computed by the JavaScript source are modelled as exact reals.  The
geometry collaborators (`@turf/centroid`, `@turf/area`, `@turf/distance`,
`@turf/bbox`, `@turf/bbox-polygon`, `convertArea`) are packages of this
repository that are not under `src/`; they are kept as abstract parameters,
and `@turf/nearest-point` is modelled from the spec where its behavior is
needed.
-/

namespace Turf

/-- The analysis-result object attached under the `nearestNeighborAnalysis`
property key (index.js lines 84–92). -/
structure AnalysisResult where
  units : String
  arealUnits : String
  observedMeanDistance : ℝ
  expectedMeanDistance : ℝ
  nearestNeighborIndex : ℝ
  numberOfPoints : ℕ
  zScore : ℝ

/-- A property-bag value: an opaque caller-supplied value (modelled as a
string), or the embedded analysis-result object. -/
inductive PropVal where
  | str : String → PropVal
  | analysis : AnalysisResult → PropVal

/-- A property bag: an ordered mapping of string keys to values. -/
abbrev Props := List (String × PropVal)

/-- JS property assignment `bag[k] = v`: overwrite the entry if the key is
present, otherwise append a fresh entry. -/
def setKey (bag : Props) (k : String) (v : PropVal) : Props :=
  if bag.any (fun p => p.1 == k) then
    bag.map (fun p => if p.1 == k then (k, v) else p)
  else bag ++ [(k, v)]

/-- The keys of a property bag. -/
def keys (bag : Props) : List String := bag.map Prod.fst

/-- A GeoJSON feature: a geometry (opaque, type parameter `γ`) together with
a mutable property bag. -/
structure Feature (γ : Type) where
  geometry : γ
  properties : Props

/-- The options object of `nearestNeighborAnalysis` (index.js lines 66–69):
all fields optional, defaults applied inside the function. -/
structure Options (γ : Type) where
  studyArea : Option (Feature γ) := none
  units : Option String := none
  properties : Option Props := none

section Collaborators

variable {γ : Type}
variable (centroid : γ → γ)
variable (area : γ → ℝ)
variable (dist : γ → γ → String → ℝ)
variable (convertArea : ℝ → String → String → ℝ)
variable (bboxPolygonOf : List (Feature γ) → γ)

/-- Modelled from the spec: the `@turf/nearest-point` collaborator (a package
of this repository outside `src/`).  Returns the member of the collection
nearest to the target, `none` on an empty collection; the distances it
compares internally are in its own base unit (kilometers). -/
noncomputable def nearestPoint (target : γ) : List γ → Option γ
  | [] => none
  | p :: rest =>
    match nearestPoint target rest with
    | none => some p
    | some q =>
      if dist target p "kilometers" ≤ dist target q "kilometers" then some p
      else some q

/-- The sub-collection handed to the nearest-point search for the feature at
position `index`: all features whose position differs from `index`
(`features.filter(function (f, i) { return i !== index; })`,
index.js lines 76–78). -/
def othersOf (features : List γ) (index : ℕ) : List γ :=
  (features.enum.filter (fun p => p.1 != index)).map Prod.snd

/-- The per-feature nearest-neighbor distances (index.js lines 75–80): the
feature at position `i` is compared with the nearest member of
`othersOf features i`, and the distance is taken in the resolved unit.
(The JS nearest-point search faults on an empty collection, which only
happens when n ≤ 1; the embedding yields 0 there.) -/
noncomputable def nnDistances (features : List γ) (units : String) : List ℝ :=
  features.enum.map (fun p =>
    match nearestPoint dist p.2 (othersOf features p.1) with
    | some q => dist p.2 q units
    | none => 0)

/-- Centroid reduction (index.js lines 70–73): every feature of the dataset
is reduced to its centroid. -/
def centroids (dataset : List (Feature γ)) : List γ :=
  dataset.map (fun f => centroid f.geometry)

/-- The resolved study area (index.js line 67): the supplied polygon, or else
the bounding-box polygon of the dataset (a fresh feature with an empty
property bag). -/
def resolvedStudyArea (dataset : List (Feature γ)) (options : Options γ) :
    Feature γ :=
  options.studyArea.getD ⟨bboxPolygonOf dataset, []⟩

/-- The resolved linear unit (index.js line 69). -/
def resolvedUnits (options : Options γ) : String :=
  options.units.getD "kilometers"

/-- The local `observedMeanDistance` (index.js lines 75–80): the mean of the
per-feature nearest-neighbor distances over the centroid-reduced sequence. -/
noncomputable def observedMeanDistance (dataset : List (Feature γ))
    (options : Options γ) : ℝ :=
  (nnDistances dist (centroids centroid dataset) (resolvedUnits options)).sum /
    ((centroids centroid dataset).length : ℝ)

/-- The local `populationDensity` (index.js line 81):
`n / convertArea(area(studyArea), 'meters', units)`. -/
noncomputable def populationDensity (dataset : List (Feature γ))
    (options : Options γ) : ℝ :=
  ((centroids centroid dataset).length : ℝ) /
    convertArea (area (resolvedStudyArea bboxPolygonOf dataset options).geometry)
      "meters" (resolvedUnits options)

/-- The local `expectedMeanDistance` (index.js line 82):
`1 / (2 * Math.sqrt(populationDensity))`. -/
noncomputable def expectedMeanDistance (dataset : List (Feature γ))
    (options : Options γ) : ℝ :=
  1 / (2 * Real.sqrt
    (populationDensity centroid area convertArea bboxPolygonOf dataset options))

/-- The local `variance` (index.js line 83):
`0.26136 / Math.sqrt(n * populationDensity)`. -/
noncomputable def varianceOf (dataset : List (Feature γ))
    (options : Options γ) : ℝ :=
  0.26136 / Real.sqrt (((centroids centroid dataset).length : ℝ) *
    populationDensity centroid area convertArea bboxPolygonOf dataset options)

/-- The numeric core of the function (index.js lines 70–92), assembling the
analysis-result object field by field as the source does. -/
noncomputable def analysisResult (dataset : List (Feature γ))
    (options : Options γ) : AnalysisResult :=
  { units := resolvedUnits options
    arealUnits := resolvedUnits options ++ "²"
    observedMeanDistance :=
      observedMeanDistance centroid dist dataset options
    expectedMeanDistance :=
      expectedMeanDistance centroid area convertArea bboxPolygonOf dataset
        options
    nearestNeighborIndex :=
      observedMeanDistance centroid dist dataset options /
        expectedMeanDistance centroid area convertArea bboxPolygonOf dataset
          options
    numberOfPoints := (centroids centroid dataset).length
    zScore :=
      (observedMeanDistance centroid dist dataset options -
        expectedMeanDistance centroid area convertArea bboxPolygonOf dataset
          options) /
        varianceOf centroid area convertArea bboxPolygonOf dataset options }

/-- The function `nearestNeighborAnalysis` (index.js lines 64–95): resolves
the study area and options, computes the analysis result, stores it under
the `nearestNeighborAnalysis` key of the resolved `properties` bag, and
returns the study area carrying that bag. -/
noncomputable def nearestNeighborAnalysis (dataset : List (Feature γ))
    (options : Options γ) : Feature γ :=
  let studyArea := resolvedStudyArea bboxPolygonOf dataset options
  let properties := options.properties.getD []
  { geometry := studyArea.geometry
    properties := setKey properties "nearestNeighborAnalysis"
      (PropVal.analysis
        (analysisResult centroid area dist convertArea bboxPolygonOf dataset
          options)) }

/-- Modelled from the spec: the public `analyze` entry point of §4.1/§7.
Validation of a null/absent dataset happens in the `@turf` collaborator
packages (bbox, meta), which belong to this repository but are outside
`src/`; per §7 (InvalidInput) a null/absent dataset fails fast with a
descriptive error before any computation begins. -/
noncomputable def analyze (dataset : Option (List (Feature γ)))
    (options : Options γ) : Except String (Feature γ) :=
  match dataset with
  | none => Except.error "dataset is required"
  | some ds =>
    Except.ok
      (nearestNeighborAnalysis centroid area dist convertArea bboxPolygonOf ds
        options)

end Collaborators

section Theorems

variable {γ : Type}
variable (centroid : γ → γ)
variable (area : γ → ℝ)
variable (dist : γ → γ → String → ℝ)
variable (convertArea : ℝ → String → String → ℝ)
variable (bboxPolygonOf : List (Feature γ) → γ)

lemma centroids_length (dataset : List (Feature γ)) :
    (centroids centroid dataset).length = dataset.length := by
  simp [centroids]

/-- C1: for every dataset of n features and resolved study area with positive
measured area, the `expectedMeanDistance` field of the result equals
`1 / (2 * sqrt(populationDensity))`, where `populationDensity` is n divided by
the study area's area converted from square meters into the squared form of
the resolved linear unit. -/
theorem expectedMeanDistance_closed_form
    (dataset : List (Feature γ)) (options : Options γ)
    (hA : 0 < convertArea
      (area (resolvedStudyArea bboxPolygonOf dataset options).geometry)
      "meters" (resolvedUnits options)) :
    (analysisResult centroid area dist convertArea bboxPolygonOf dataset
        options).expectedMeanDistance =
      1 / (2 * Real.sqrt ((dataset.length : ℝ) /
        convertArea
          (area (resolvedStudyArea bboxPolygonOf dataset options).geometry)
          "meters" (resolvedUnits options))) := by
  simp [analysisResult, expectedMeanDistance, populationDensity, centroids]

/-- C2: for every valid run (n ≥ 2, positive study-area area), the `zScore`
field equals `(observedMeanDistance - expectedMeanDistance) / variance`,
where `variance = 0.26136 / sqrt(n * populationDensity)` with the constant
0.26136 preserved exactly. -/
theorem zScore_formula
    (dataset : List (Feature γ)) (options : Options γ)
    (hn : 2 ≤ dataset.length)
    (hA : 0 < convertArea
      (area (resolvedStudyArea bboxPolygonOf dataset options).geometry)
      "meters" (resolvedUnits options)) :
    (analysisResult centroid area dist convertArea bboxPolygonOf dataset
        options).zScore =
      ((analysisResult centroid area dist convertArea bboxPolygonOf dataset
          options).observedMeanDistance -
        (analysisResult centroid area dist convertArea bboxPolygonOf dataset
          options).expectedMeanDistance) /
      (0.26136 / Real.sqrt ((dataset.length : ℝ) *
        ((dataset.length : ℝ) /
          convertArea
            (area (resolvedStudyArea bboxPolygonOf dataset options).geometry)
            "meters" (resolvedUnits options)))) := by
  simp [analysisResult, varianceOf, populationDensity, centroids]

/-- C3: for every run, the `nearestNeighborIndex` field of the result equals
`observedMeanDistance / expectedMeanDistance`, exactly the ratio of the other
two fields of the same result object. -/
theorem nearestNeighborIndex_eq_ratio
    (dataset : List (Feature γ)) (options : Options γ) :
    (analysisResult centroid area dist convertArea bboxPolygonOf dataset
        options).nearestNeighborIndex =
      (analysisResult centroid area dist convertArea bboxPolygonOf dataset
          options).observedMeanDistance /
        (analysisResult centroid area dist convertArea bboxPolygonOf dataset
          options).expectedMeanDistance := rfl

/-- C5: for all non-degenerate inputs (n ≥ 2, positive study-area measured
area), the `numberOfPoints` field of the result equals the count of features
in the input dataset (each feature having been reduced to one centroid). -/
theorem numberOfPoints_eq_count
    (dataset : List (Feature γ)) (options : Options γ)
    (hn : 2 ≤ dataset.length)
    (hA : 0 < convertArea
      (area (resolvedStudyArea bboxPolygonOf dataset options).geometry)
      "meters" (resolvedUnits options)) :
    (analysisResult centroid area dist convertArea bboxPolygonOf dataset
        options).numberOfPoints = dataset.length := by
  simp [analysisResult, centroids]

/-- C6: if the dataset argument is null/absent, `analyze` fails fast with a
descriptive error before any computation (centroid reduction, distances,
statistics) begins; no result feature is produced. -/
theorem analyze_none_fails (options : Options γ) :
    analyze centroid area dist convertArea bboxPolygonOf none options =
      Except.error "dataset is required" := rfl

/-- C9: when an explicit `options.studyArea` polygon is supplied, the returned
feature carries that same polygon's geometry unchanged; only the property bag
differs. -/
theorem studyArea_geometry_preserved
    (dataset : List (Feature γ)) (sa : Feature γ) (u : Option String)
    (p : Option Props) :
    (nearestNeighborAnalysis centroid area dist convertArea bboxPolygonOf
        dataset ⟨some sa, u, p⟩).geometry = sa.geometry := rfl

lemma nnDistances_length (features : List γ) (units : String) :
    (nnDistances dist features units).length = features.length := by
  simp [nnDistances]

lemma mem_othersOf {features : List γ} {index : ℕ} {x : γ} :
    x ∈ othersOf features index ↔
      ∃ j, ∃ hj : j < features.length, j ≠ index ∧ features.get ⟨j, hj⟩ = x := by
  simp only [othersOf, List.mem_map, List.mem_filter]
  constructor
  · rintro ⟨⟨j, a⟩, ⟨hmem, hne⟩, rfl⟩
    rw [List.mk_mem_enum_iff_getElem?, List.getElem?_eq_some] at hmem
    obtain ⟨hj, ha⟩ := hmem
    exact ⟨j, hj, by simpa using hne, by simpa [List.get_eq_getElem] using ha⟩
  · rintro ⟨j, hj, hne, rfl⟩
    refine ⟨(j, features.get ⟨j, hj⟩), ⟨?_, by simpa using hne⟩, rfl⟩
    rw [List.mk_mem_enum_iff_getElem?, List.getElem?_eq_some]
    exact ⟨hj, by simp [List.get_eq_getElem]⟩

lemma othersOf_ne_nil {features : List γ} {index : ℕ}
    (h2 : 2 ≤ features.length) : othersOf features index ≠ [] := by
  intro hnil
  have hnot : ∀ x : γ, x ∉ othersOf features index := by simp [hnil]
  by_cases h0 : index = 0
  · exact hnot _ (mem_othersOf.mpr ⟨1, by omega, by omega, rfl⟩)
  · exact hnot _ (mem_othersOf.mpr ⟨0, by omega, Ne.symm h0, rfl⟩)

lemma nearestPoint_mem {target q : γ} :
    ∀ {l : List γ}, nearestPoint dist target l = some q → q ∈ l
  | [], h => by simp [nearestPoint] at h
  | p :: rest, h => by
    rw [nearestPoint] at h
    rcases hrec : nearestPoint dist target rest with _ | r <;>
      rw [hrec] at h <;> dsimp only at h
    · injection h with h
      subst h
      exact List.mem_cons_self _ _
    · split at h <;> injection h with h <;> subst h
      · exact List.mem_cons_self _ _
      · exact List.mem_cons_of_mem _ (nearestPoint_mem hrec)

lemma nearestPoint_cons_some (target p : γ) (rest : List γ) :
    ∃ q, nearestPoint dist target (p :: rest) = some q := by
  rw [nearestPoint]
  cases nearestPoint dist target rest with
  | none => exact ⟨p, rfl⟩
  | some r =>
    dsimp only
    split
    · exact ⟨p, rfl⟩
    · exact ⟨r, rfl⟩

/-- C4: each feature of the centroid-reduced sequence is compared only against
the sub-collection of features at other indices — never against itself — so,
provided the distance collaborator separates points and the reduced features
are pairwise distinct, no per-feature nearest-neighbor distance is 0. -/
theorem selfExclusion
    (dataset : List (Feature γ)) (units : String)
    (hsep : ∀ x y u, dist x y u = 0 → x = y)
    (hnd : (centroids centroid dataset).Nodup)
    (h2 : 2 ≤ dataset.length) :
    (∀ i (hi : i < (centroids centroid dataset).length),
        (centroids centroid dataset).get ⟨i, hi⟩ ∉
          othersOf (centroids centroid dataset) i) ∧
      ∀ d ∈ nnDistances dist (centroids centroid dataset) units, d ≠ 0 := by
  set fs := centroids centroid dataset with hfs
  have hlen : 2 ≤ fs.length := by rw [hfs, centroids_length]; exact h2
  have hself : ∀ i (hi : i < fs.length), fs.get ⟨i, hi⟩ ∉ othersOf fs i := by
    intro i hi hmem
    obtain ⟨j, hj, hne, heq⟩ := mem_othersOf.mp hmem
    exact hne (Fin.mk_eq_mk.mp (hnd.get_inj_iff.mp heq))
  refine ⟨hself, ?_⟩
  intro d hd
  rw [nnDistances, List.mem_map] at hd
  obtain ⟨⟨i, a⟩, hmem, hval⟩ := hd
  rw [List.mk_mem_enum_iff_getElem?, List.getElem?_eq_some] at hmem
  obtain ⟨hi, ha⟩ := hmem
  cases hlist : othersOf fs i with
  | nil => exact absurd hlist (othersOf_ne_nil hlen)
  | cons p rest =>
    obtain ⟨q, hq⟩ := nearestPoint_cons_some dist a p rest
    rw [hlist, hq] at hval
    dsimp only at hval
    intro hzero
    rw [← hval] at hzero
    have haq : a = q := hsep _ _ _ hzero
    have hqmem : q ∈ othersOf fs i := by rw [hlist]; exact nearestPoint_mem dist hq
    obtain ⟨j, hj, hne, heqj⟩ := mem_othersOf.mp hqmem
    have : fs.get ⟨j, hj⟩ = fs.get ⟨i, hi⟩ := by
      rw [heqj, ← haq, ha.symm]
      simp [List.get_eq_getElem]
    exact hne (Fin.mk_eq_mk.mp (hnd.get_inj_iff.mp this))

/-- C8: holding the dataset fixed (same n ≥ 1), replacing the study area with
one of strictly smaller positive measured area strictly increases
`populationDensity` and therefore strictly decreases the
`expectedMeanDistance` field of the result. -/
theorem expectedMeanDistance_strict_anti
    (dataset : List (Feature γ)) (sa1 sa2 : Feature γ) (u : Option String)
    (p : Option Props)
    (hn : 1 ≤ dataset.length)
    (hpos : 0 < convertArea (area sa2.geometry) "meters"
      (resolvedUnits (⟨some sa2, u, p⟩ : Options γ)))
    (hlt : convertArea (area sa2.geometry) "meters"
        (resolvedUnits (⟨some sa2, u, p⟩ : Options γ)) <
      convertArea (area sa1.geometry) "meters"
        (resolvedUnits (⟨some sa1, u, p⟩ : Options γ))) :
    populationDensity centroid area convertArea bboxPolygonOf dataset
        ⟨some sa1, u, p⟩ <
      populationDensity centroid area convertArea bboxPolygonOf dataset
        ⟨some sa2, u, p⟩ ∧
    (analysisResult centroid area dist convertArea bboxPolygonOf dataset
        ⟨some sa2, u, p⟩).expectedMeanDistance <
      (analysisResult centroid area dist convertArea bboxPolygonOf dataset
        ⟨some sa1, u, p⟩).expectedMeanDistance := by
  have hn' : (0 : ℝ) < ((centroids centroid dataset).length : ℝ) := by
    rw [centroids_length]
    exact_mod_cast Nat.lt_of_lt_of_le Nat.zero_lt_one hn
  have e1 : populationDensity centroid area convertArea bboxPolygonOf dataset
      ⟨some sa1, u, p⟩ =
      ((centroids centroid dataset).length : ℝ) /
        convertArea (area sa1.geometry) "meters"
          (resolvedUnits (⟨some sa1, u, p⟩ : Options γ)) := rfl
  have e2 : populationDensity centroid area convertArea bboxPolygonOf dataset
      ⟨some sa2, u, p⟩ =
      ((centroids centroid dataset).length : ℝ) /
        convertArea (area sa2.geometry) "meters"
          (resolvedUnits (⟨some sa2, u, p⟩ : Options γ)) := rfl
  have hpd : populationDensity centroid area convertArea bboxPolygonOf dataset
      ⟨some sa1, u, p⟩ <
      populationDensity centroid area convertArea bboxPolygonOf dataset
        ⟨some sa2, u, p⟩ := by
    rw [e1, e2]
    exact div_lt_div_of_pos_left hn' hpos hlt
  have hA1pos : 0 < convertArea (area sa1.geometry) "meters"
      (resolvedUnits (⟨some sa1, u, p⟩ : Options γ)) := hpos.trans hlt
  have hpd1pos : 0 < populationDensity centroid area convertArea bboxPolygonOf
      dataset ⟨some sa1, u, p⟩ := by
    rw [e1]
    exact div_pos hn' hA1pos
  refine ⟨hpd, ?_⟩
  show expectedMeanDistance centroid area convertArea bboxPolygonOf dataset
      ⟨some sa2, u, p⟩ <
    expectedMeanDistance centroid area convertArea bboxPolygonOf dataset
      ⟨some sa1, u, p⟩
  rw [expectedMeanDistance, expectedMeanDistance]
  have hsqrt : Real.sqrt (populationDensity centroid area convertArea
      bboxPolygonOf dataset ⟨some sa1, u, p⟩) <
      Real.sqrt (populationDensity centroid area convertArea bboxPolygonOf
        dataset ⟨some sa2, u, p⟩) :=
    Real.sqrt_lt_sqrt hpd1pos.le hpd
  have hs1 : 0 < 2 * Real.sqrt (populationDensity centroid area convertArea
      bboxPolygonOf dataset ⟨some sa1, u, p⟩) := by
    have := Real.sqrt_pos.mpr hpd1pos
    linarith
  exact one_div_lt_one_div_of_lt hs1 (by linarith)

lemma mem_keys_setKey {bag : Props} {k k' : String} {v : PropVal}
    (h : k' ∈ keys (setKey bag k v)) : k' = k ∨ k' ∈ keys bag := by
  rw [setKey] at h
  split at h
  · rw [keys, List.mem_map] at h
    obtain ⟨q, hq, hval⟩ := h
    rw [List.mem_map] at hq
    obtain ⟨r, hr, rfl⟩ := hq
    by_cases hc : r.1 == k
    · rw [if_pos hc] at hval
      exact Or.inl hval.symm
    · rw [if_neg hc] at hval
      exact Or.inr (by rw [keys, List.mem_map]; exact ⟨r, hr, hval⟩)
  · rw [keys, List.mem_map] at h
    obtain ⟨q, hq, hval⟩ := h
    rw [List.mem_append] at hq
    cases hq with
    | inl hmem => exact Or.inr (by rw [keys, List.mem_map]; exact ⟨q, hmem, hval⟩)
    | inr hmem =>
      left
      have hq' : q = (k, v) := by simpa using hmem
      rw [hq'] at hval
      exact hval.symm

/-- C10 (amended): when `options.studyArea` is supplied, the returned
feature's property bag is exactly the `options.properties` mapping (or a
fresh empty mapping when absent) with the `nearestNeighborAnalysis` entry
set; every key other than `nearestNeighborAnalysis` that is present in the
study area's original bag but absent from `options.properties` is absent
from the returned bag — the original bag is replaced wholesale, never merged
into. -/
theorem propertyBag_replaced_wholesale
    (dataset : List (Feature γ)) (sa : Feature γ) (u : Option String)
    (p : Option Props) :
    (nearestNeighborAnalysis centroid area dist convertArea bboxPolygonOf
        dataset ⟨some sa, u, p⟩).properties =
      setKey (p.getD []) "nearestNeighborAnalysis"
        (PropVal.analysis (analysisResult centroid area dist convertArea
          bboxPolygonOf dataset ⟨some sa, u, p⟩)) ∧
    ∀ k, k ≠ "nearestNeighborAnalysis" →
      k ∈ keys sa.properties →
      k ∉ keys (p.getD []) →
      k ∉ keys (nearestNeighborAnalysis centroid area dist convertArea
        bboxPolygonOf dataset ⟨some sa, u, p⟩).properties := by
  refine ⟨rfl, ?_⟩
  intro k hk hsa hnot hmem
  have h : k = "nearestNeighborAnalysis" ∨ k ∈ keys (p.getD []) :=
    mem_keys_setKey hmem
  cases h with
  | inl h => exact hk h
  | inr h => exact hnot h

end Theorems

/-! Concrete collaborator instantiation used to exercise the theorems on
explicit inputs: a geometry is an integer, the centroid is the geometry
itself, area reads the integer, distance is the absolute difference, and
unit conversion is the identity. -/

def cCentroid : ℤ → ℤ := id

noncomputable def cArea : ℤ → ℝ := fun g => (g : ℝ)

noncomputable def cDist : ℤ → ℤ → String → ℝ := fun x y _ => ((x - y).natAbs : ℝ)

noncomputable def cConvertArea : ℝ → String → String → ℝ := fun a _ _ => a

def cBBoxPolygonOf : List (Feature ℤ) → ℤ := fun _ => 0

def dsTwo : List (Feature ℤ) := [⟨0, []⟩, ⟨1, []⟩]

def dsOne : List (Feature ℤ) := [⟨0, []⟩]

def saBig : Feature ℤ := ⟨4, []⟩

def saSmall : Feature ℤ := ⟨1, []⟩

def saOld : Feature ℤ := ⟨1, [("nearestNeighborAnalysis", PropVal.str "old")]⟩

def saFoo : Feature ℤ := ⟨1, [("foo", PropVal.str "x")]⟩

/-- Witness for C1 at a two-feature dataset over a study area of measured
area 4. -/
theorem expectedMeanDistance_closed_form_witness :
    (0 < cConvertArea
      (cArea (resolvedStudyArea cBBoxPolygonOf dsTwo
        ⟨some saBig, none, none⟩).geometry)
      "meters" (resolvedUnits (⟨some saBig, none, none⟩ : Options ℤ))) ∧
    (analysisResult cCentroid cArea cDist cConvertArea cBBoxPolygonOf dsTwo
        ⟨some saBig, none, none⟩).expectedMeanDistance =
      1 / (2 * Real.sqrt ((dsTwo.length : ℝ) /
        cConvertArea
          (cArea (resolvedStudyArea cBBoxPolygonOf dsTwo
            ⟨some saBig, none, none⟩).geometry)
          "meters" (resolvedUnits (⟨some saBig, none, none⟩ : Options ℤ)))) := by
  have h : 0 < cConvertArea
      (cArea (resolvedStudyArea cBBoxPolygonOf dsTwo
        ⟨some saBig, none, none⟩).geometry)
      "meters" (resolvedUnits (⟨some saBig, none, none⟩ : Options ℤ)) := by
    norm_num [cConvertArea, cArea, resolvedStudyArea, saBig]
  exact ⟨h, expectedMeanDistance_closed_form cCentroid cArea cDist cConvertArea
    cBBoxPolygonOf dsTwo ⟨some saBig, none, none⟩ h⟩

/-- Witness for C2 at the same dataset and study area. -/
theorem zScore_formula_witness :
    (2 ≤ dsTwo.length ∧
      0 < cConvertArea
        (cArea (resolvedStudyArea cBBoxPolygonOf dsTwo
          ⟨some saBig, none, none⟩).geometry)
        "meters" (resolvedUnits (⟨some saBig, none, none⟩ : Options ℤ))) ∧
    (analysisResult cCentroid cArea cDist cConvertArea cBBoxPolygonOf dsTwo
        ⟨some saBig, none, none⟩).zScore =
      ((analysisResult cCentroid cArea cDist cConvertArea cBBoxPolygonOf dsTwo
          ⟨some saBig, none, none⟩).observedMeanDistance -
        (analysisResult cCentroid cArea cDist cConvertArea cBBoxPolygonOf
          dsTwo ⟨some saBig, none, none⟩).expectedMeanDistance) /
      (0.26136 / Real.sqrt ((dsTwo.length : ℝ) *
        ((dsTwo.length : ℝ) /
          cConvertArea
            (cArea (resolvedStudyArea cBBoxPolygonOf dsTwo
              ⟨some saBig, none, none⟩).geometry)
            "meters"
            (resolvedUnits (⟨some saBig, none, none⟩ : Options ℤ))))) := by
  have hn : 2 ≤ dsTwo.length := by decide
  have h : 0 < cConvertArea
      (cArea (resolvedStudyArea cBBoxPolygonOf dsTwo
        ⟨some saBig, none, none⟩).geometry)
      "meters" (resolvedUnits (⟨some saBig, none, none⟩ : Options ℤ)) := by
    norm_num [cConvertArea, cArea, resolvedStudyArea, saBig]
  exact ⟨⟨hn, h⟩, zScore_formula cCentroid cArea cDist cConvertArea
    cBBoxPolygonOf dsTwo ⟨some saBig, none, none⟩ hn h⟩

/-- Witness for C5 at the same dataset and study area. -/
theorem numberOfPoints_eq_count_witness :
    (2 ≤ dsTwo.length ∧
      0 < cConvertArea
        (cArea (resolvedStudyArea cBBoxPolygonOf dsTwo
          ⟨some saBig, none, none⟩).geometry)
        "meters" (resolvedUnits (⟨some saBig, none, none⟩ : Options ℤ))) ∧
    (analysisResult cCentroid cArea cDist cConvertArea cBBoxPolygonOf dsTwo
        ⟨some saBig, none, none⟩).numberOfPoints = dsTwo.length := by
  have hn : 2 ≤ dsTwo.length := by decide
  have h : 0 < cConvertArea
      (cArea (resolvedStudyArea cBBoxPolygonOf dsTwo
        ⟨some saBig, none, none⟩).geometry)
      "meters" (resolvedUnits (⟨some saBig, none, none⟩ : Options ℤ)) := by
    norm_num [cConvertArea, cArea, resolvedStudyArea, saBig]
  exact ⟨⟨hn, h⟩, numberOfPoints_eq_count cCentroid cArea cDist cConvertArea
    cBBoxPolygonOf dsTwo ⟨some saBig, none, none⟩ hn h⟩

/-- Witness for C4: two distinct integer geometries, absolute-difference
distance. -/
theorem selfExclusion_witness :
    ((∀ x y u, cDist x y u = 0 → x = y) ∧
      (centroids cCentroid dsTwo).Nodup ∧ 2 ≤ dsTwo.length) ∧
    ((∀ i (hi : i < (centroids cCentroid dsTwo).length),
        (centroids cCentroid dsTwo).get ⟨i, hi⟩ ∉
          othersOf (centroids cCentroid dsTwo) i) ∧
      ∀ d ∈ nnDistances cDist (centroids cCentroid dsTwo) "kilometers",
        d ≠ 0) := by
  have hsep : ∀ x y u, cDist x y u = 0 → x = y := by
    intro x y u h
    simp only [cDist] at h
    have h' : (x - y).natAbs = 0 := by exact_mod_cast h
    omega
  have hnd : (centroids cCentroid dsTwo).Nodup := by decide
  have h2 : 2 ≤ dsTwo.length := by decide
  exact ⟨⟨hsep, hnd, h2⟩,
    selfExclusion cCentroid cDist dsTwo "kilometers" hsep hnd h2⟩

/-- Witness for C8: one feature, study areas of measured area 4 and 1. -/
theorem expectedMeanDistance_strict_anti_witness :
    (1 ≤ dsOne.length ∧
      0 < cConvertArea (cArea saSmall.geometry) "meters"
        (resolvedUnits (⟨some saSmall, none, none⟩ : Options ℤ)) ∧
      cConvertArea (cArea saSmall.geometry) "meters"
          (resolvedUnits (⟨some saSmall, none, none⟩ : Options ℤ)) <
        cConvertArea (cArea saBig.geometry) "meters"
          (resolvedUnits (⟨some saBig, none, none⟩ : Options ℤ))) ∧
    (populationDensity cCentroid cArea cConvertArea cBBoxPolygonOf dsOne
        ⟨some saBig, none, none⟩ <
      populationDensity cCentroid cArea cConvertArea cBBoxPolygonOf dsOne
        ⟨some saSmall, none, none⟩ ∧
    (analysisResult cCentroid cArea cDist cConvertArea cBBoxPolygonOf dsOne
        ⟨some saSmall, none, none⟩).expectedMeanDistance <
      (analysisResult cCentroid cArea cDist cConvertArea cBBoxPolygonOf dsOne
        ⟨some saBig, none, none⟩).expectedMeanDistance) := by
  have hn : 1 ≤ dsOne.length := by decide
  have hpos : 0 < cConvertArea (cArea saSmall.geometry) "meters"
      (resolvedUnits (⟨some saSmall, none, none⟩ : Options ℤ)) := by
    norm_num [cConvertArea, cArea, saSmall]
  have hlt : cConvertArea (cArea saSmall.geometry) "meters"
      (resolvedUnits (⟨some saSmall, none, none⟩ : Options ℤ)) <
      cConvertArea (cArea saBig.geometry) "meters"
        (resolvedUnits (⟨some saBig, none, none⟩ : Options ℤ)) := by
    norm_num [cConvertArea, cArea, saSmall, saBig]
  exact ⟨⟨hn, hpos, hlt⟩, expectedMeanDistance_strict_anti cCentroid cArea
    cDist cConvertArea cBBoxPolygonOf dsOne saBig saSmall none none hn hpos hlt⟩

/-- Witness for C10 (amended): key `foo` of the original study-area bag is
gone from the returned bag. -/
theorem propertyBag_replaced_wholesale_witness :
    (("foo" : String) ≠ "nearestNeighborAnalysis" ∧
      "foo" ∈ keys saFoo.properties ∧
      "foo" ∉ keys ((none : Option Props).getD [])) ∧
    "foo" ∉ keys (nearestNeighborAnalysis cCentroid cArea cDist cConvertArea
      cBBoxPolygonOf dsTwo ⟨some saFoo, none, none⟩).properties := by
  have h1 : ("foo" : String) ≠ "nearestNeighborAnalysis" := by decide
  have h2 : "foo" ∈ keys saFoo.properties := by simp [saFoo, keys]
  have h3 : "foo" ∉ keys ((none : Option Props).getD []) := by simp [keys]
  exact ⟨⟨h1, h2, h3⟩,
    (propertyBag_replaced_wholesale cCentroid cArea cDist cConvertArea
      cBBoxPolygonOf dsTwo saFoo none none).2 "foo" h1 h2 h3⟩

/-- Counterexample to C10 as stated: when the supplied study area's original
bag already holds a `nearestNeighborAnalysis` entry and `options.properties`
is absent, that key is present in the original bag, absent from
`options.properties`, and yet present in the returned bag. -/
theorem propertyBag_counterexample :
    "nearestNeighborAnalysis" ∈ keys saOld.properties ∧
    "nearestNeighborAnalysis" ∉ keys ((none : Option Props).getD []) ∧
    "nearestNeighborAnalysis" ∈
      keys (nearestNeighborAnalysis cCentroid cArea cDist cConvertArea
        cBBoxPolygonOf dsTwo ⟨some saOld, none, none⟩).properties := by
  refine ⟨by simp [saOld, keys], by simp [keys], ?_⟩
  simp [nearestNeighborAnalysis, setKey, keys]

end Turf
